import Mathlib

/-!
Verification development for the HeadSynth motion-to-music engine.

This file gives a shallow embedding, over the rationals and integers, of
the algorithmic core of the repository: the head-tracker smoothing and
normalization (src/js/head-tracker.js, enhanced version), the calibration
data processing (src/js/calibration.js), the parameter mapper
(mapHeadXToNoteIndex in main.js), and the loop recorder and scheduler
(src/js/looper.js).  JavaScript numbers are modelled as rationals and
millisecond timestamps as integers; Math.floor is Int.floor, Math.round
is the round-half-up function, and the JavaScript remainder operator on
nonnegative operands is Int.emod.  Visualization-only fields (colors,
DOM metadata, visual sizes) are omitted, as no claim concerns them.
-/

namespace HeadSynth

/-! ## Head tracker data model (head-tracker.js, enhanced version) -/

/-- A head pose with confidence, as handled by the enhanced HeadTracker:
fields x, y, z, confidence. -/
structure Pose4 where
  x : ℚ
  y : ℚ
  z : ℚ
  confidence : ℚ
  deriving DecidableEq, Repr

/-- Calibration data record: calibrationData in the HeadTracker
constructor and the object produced by the Calibration component. -/
structure CalibrationData where
  centerX : ℚ
  centerY : ℚ
  centerZ : ℚ
  rangeX : ℚ
  rangeY : ℚ
  rangeZ : ℚ
  deriving DecidableEq, Repr

/-- The per-axis sensitivity part of the HeadTracker config object. -/
structure SensitivityConfig where
  sensitivityX : ℚ
  sensitivityY : ℚ
  sensitivityZ : ℚ
  deriving DecidableEq, Repr

/-- Embedding of _applyCalibration (head-tracker.js lines 675 to 697):
per axis, compute ((headData.axis - center) / range) * sensitivity,
pass confidence through, then clamp x, y, z to [-1, 1] with
Math.max(-1, Math.min(1, v)).  Note that this version applies no final
factor of 2. -/
def applyCalibration (headData : Pose4) (cd : CalibrationData)
    (cfg : SensitivityConfig) : Pose4 :=
  let calibrated : Pose4 :=
    { x := ((headData.x - cd.centerX) / cd.rangeX) * cfg.sensitivityX
      y := ((headData.y - cd.centerY) / cd.rangeY) * cfg.sensitivityY
      z := ((headData.z - cd.centerZ) / cd.rangeZ) * cfg.sensitivityZ
      confidence := headData.confidence }
  { calibrated with
      x := max (-1) (min 1 calibrated.x)
      y := max (-1) (min 1 calibrated.y)
      z := max (-1) (min 1 calibrated.z) }

/-- Normalization as the spec sentence for claim C3 words it, factor of 2
included: ((smoothed.axis - centerAxis) / rangeAxis) * sensitivityAxis * 2,
then clamp to [-1, 1].  Written from the spec, for comparison with
applyCalibration. -/
def normalizeSpecWithTwo (headData : Pose4) (cd : CalibrationData)
    (cfg : SensitivityConfig) : Pose4 :=
  { x := max (-1) (min 1 (((headData.x - cd.centerX) / cd.rangeX) * cfg.sensitivityX * 2))
    y := max (-1) (min 1 (((headData.y - cd.centerY) / cd.rangeY) * cfg.sensitivityY * 2))
    z := max (-1) (min 1 (((headData.z - cd.centerZ) / cd.rangeZ) * cfg.sensitivityZ * 2))
    confidence := headData.confidence }

/-- Normalization as the amended claim C3 words it, with the factor of 2
dropped: ((smoothed.axis - centerAxis) / rangeAxis) * sensitivityAxis,
then clamp to [-1, 1]. -/
def normalizeSpecNoTwo (headData : Pose4) (cd : CalibrationData)
    (cfg : SensitivityConfig) : Pose4 :=
  { x := max (-1) (min 1 (((headData.x - cd.centerX) / cd.rangeX) * cfg.sensitivityX))
    y := max (-1) (min 1 (((headData.y - cd.centerY) / cd.rangeY) * cfg.sensitivityY))
    z := max (-1) (min 1 (((headData.z - cd.centerZ) / cd.rangeZ) * cfg.sensitivityZ))
    confidence := headData.confidence }

/-- The lastHeadData field right after the HeadTracker constructor
(head-tracker.js line 247): the object with x = y = z = confidence = 0.
It is an object, hence truthy, so it is modelled as some of that pose;
the constructor never leaves it null. -/
def initialLastHeadData : Option Pose4 :=
  some { x := 0, y := 0, z := 0, confidence := 0 }

/-- Default smoothing factor from the HeadTracker config (0.7). -/
def defaultSmoothingFactor : ℚ := 7 / 10

/-- Embedding of _smoothHeadData (head-tracker.js lines 654 to 668),
returning the updated lastHeadData.  The source checks the truthiness of
this.lastHeadData: when present it blends with the exponential filter and
copies confidence unsmoothed; only when absent would it copy the sample
directly.  The constructor initializes lastHeadData to a (truthy) zero
object, so on a real first frame the blend branch runs. -/
def smoothHeadData (lastHeadData : Option Pose4) (headData : Pose4)
    (smooth : ℚ) : Option Pose4 :=
  match lastHeadData with
  | some prev =>
      some { x := smooth * prev.x + (1 - smooth) * headData.x
             y := smooth * prev.y + (1 - smooth) * headData.y
             z := smooth * prev.z + (1 - smooth) * headData.z
             confidence := headData.confidence }
  | none => some headData

/-! ## Calibration data processing (calibration.js) -/

/-- A plain sample pose without confidence, as collected by
_collectSample: the cloned object with fields x, y, z. -/
structure Pose3 where
  x : ℚ
  y : ℚ
  z : ℚ
  deriving DecidableEq, Repr

/-- Componentwise sum used by the reduce in _processCalibrationData,
starting from the zero accumulator. -/
def sumSamples (samples : List Pose3) : Pose3 :=
  samples.foldl
    (fun acc sample =>
      { x := acc.x + sample.x, y := acc.y + sample.y, z := acc.z + sample.z })
    { x := 0, y := 0, z := 0 }

/-- Mean position of a sample list, as computed in
_processCalibrationData: the componentwise sum divided by the length. -/
def centroid (samples : List Pose3) : Pose3 :=
  let s := sumSamples samples
  { x := s.x / samples.length, y := s.y / samples.length, z := s.z / samples.length }

/-- The seven per-pose sample lists held in this.samples. -/
structure CalibSamples where
  center : List Pose3
  up : List Pose3
  down : List Pose3
  left : List Pose3
  right : List Pose3
  tiltLeft : List Pose3
  tiltRight : List Pose3
  deriving DecidableEq, Repr

/-- Embedding of _processCalibrationData (calibration.js lines 331 to
391): centers are the centroid of the center samples; each range is the
larger distance of the two matched extreme centroids from the center,
doubled, and floored at 0.05 via Math.max(0.05, range). -/
def processCalibrationData (samples : CalibSamples) : CalibrationData :=
  let centerX := (centroid samples.center).x
  let centerY := (centroid samples.center).y
  let centerZ := (centroid samples.center).z
  let rangeX :=
    max |(centroid samples.left).x - centerX| |(centroid samples.right).x - centerX| * 2
  let rangeY :=
    max |(centroid samples.up).y - centerY| |(centroid samples.down).y - centerY| * 2
  let rangeZ :=
    max |(centroid samples.tiltLeft).z - centerZ| |(centroid samples.tiltRight).z - centerZ| * 2
  { centerX := centerX
    centerY := centerY
    centerZ := centerZ
    rangeX := max (1/20) rangeX
    rangeY := max (1/20) rangeY
    rangeZ := max (1/20) rangeZ }

/-- Minimum samples per calibration step (this.minSamplesPerStep). -/
def minSamplesPerStep : ℕ := 10

/-- Outcome of one _calibratePosition step (calibration.js lines 273 to
296), as a function of the number of samples collected for the position
when the step timeout fires: the promise rejects whenever the count is
below minSamplesPerStep, and resolves otherwise. -/
def calibratePosition (positionName : String) (count : ℕ) : Except String Unit :=
  if count < minSamplesPerStep then
    Except.error ("Failed to collect enough data for " ++ positionName ++ " position")
  else
    Except.ok ()

/-- Embedding of the step loop of _runCalibrationSequence (calibration.js
lines 207 to 264): the steps run in order; the first rejecting step
throws out of the loop, the failure callback fires and no later step
runs.  Each step is represented by its name and its collected sample
count. -/
def runCalibrationSequence : List (String × ℕ) → Except String Unit
  | [] => Except.ok ()
  | step :: rest =>
      match calibratePosition step.1 step.2 with
      | Except.error e => Except.error e
      | Except.ok _ => runCalibrationSequence rest

/-! ## Parameter mapper (main.js) -/

/-- Clamp of an integer to [lo, hi], written as the spec claims word it:
clamp(v, lo, hi).  Matches the Math.max(lo, Math.min(hi, v)) shape of the
source. -/
def clampInt (v lo hi : ℤ) : ℤ := max lo (min hi v)

/-- Embedding of mapHeadXToNoteIndex (main.js): index is
Math.floor(((x + 1) / 2) * scaleLength), then Math.max(0,
Math.min(scaleLength - 1, index)). -/
def mapHeadXToNoteIndex (x : ℚ) (scaleLength : ℕ) : ℤ :=
  let index := ⌊((x + 1) / 2) * (scaleLength : ℚ)⌋
  max 0 (min ((scaleLength : ℤ) - 1) index)

/-! ## Loop recorder (looper.js) -/

/-- JavaScript Math.round on a rational: round half up. -/
def jsRound (q : ℚ) : ℤ := ⌊q + 1/2⌋

/-- A recorded loop event.  The source stores the spread of the incoming
event plus time, timestamp and visualization metadata; only the payload
identity and the quantized time offset matter to the claims, so the
payload is abstracted to a tag and the visual fields are omitted. -/
structure LoopEvent where
  payload : ℕ
  time : ℤ
  deriving DecidableEq, Repr

/-- A track: id counter value, ordered events, final duration, mute flag.
The color and createdAt visualization fields are omitted. -/
structure Track where
  id : ℕ
  events : List LoopEvent
  duration : ℤ
  muted : Bool
  deriving DecidableEq, Repr

/-- The Looper state fields that the recorder and scheduler logic reads
and writes.  DOM, visualization and callback fields are omitted. -/
structure LooperState where
  tracks : List Track
  maxTracks : ℕ
  currentTrack : Option Track
  isRecording : Bool
  recordStartTime : ℤ
  loopDuration : ℤ
  quantizeEnabled : Bool
  quantizeResolution : ℤ
  trackCounter : ℕ
  minimumLoopDuration : ℤ
  maximumLoopDuration : ℤ
  deriving DecidableEq, Repr

/-- Looper state as built by the constructor. -/
def initLooper : LooperState :=
  { tracks := []
    maxTracks := 4
    currentTrack := none
    isRecording := false
    recordStartTime := 0
    loopDuration := 0
    quantizeEnabled := true
    quantizeResolution := 10
    trackCounter := 0
    minimumLoopDuration := 2000
    maximumLoopDuration := 20000 }

/-- Embedding of startRecording (looper.js lines 56 to 89), with the
current wall-clock time passed in for Date.now().  Returns the boolean
result together with the new state. -/
def startRecording (s : LooperState) (now : ℤ) : Bool × LooperState :=
  if s.isRecording then (false, s)
  else if s.maxTracks ≤ s.tracks.length then (false, s)
  else
    (true,
     { s with
         currentTrack := some { id := s.trackCounter, events := [], duration := 0, muted := false }
         trackCounter := s.trackCounter + 1
         recordStartTime := now
         isRecording := true })

/-- Embedding of recordEvent (looper.js lines 142 to 168): a no-op unless
recording; otherwise the offset now - recordStartTime is quantized with
Math.round(offset / Q) * Q when quantization is enabled with positive
resolution, and the event is appended to the current track. -/
def recordEvent (s : LooperState) (now : ℤ) (payload : ℕ) : LooperState :=
  if s.isRecording then
    match s.currentTrack with
    | some tr =>
        let relativeTime := now - s.recordStartTime
        let quantizedTime :=
          if s.quantizeEnabled ∧ 0 < s.quantizeResolution then
            jsRound ((relativeTime : ℚ) / (s.quantizeResolution : ℚ)) * s.quantizeResolution
          else relativeTime
        { s with
            currentTrack :=
              some { tr with events := tr.events ++ [{ payload := payload, time := quantizedTime }] } }
    | none => s
  else s

/-- Embedding of stopRecording (looper.js lines 95 to 136): when not
recording it returns null and changes nothing; otherwise the recorded
duration is clamped below by minimumLoopDuration and above by
maximumLoopDuration, the current track is finalized with that duration,
pushed onto tracks, and the recording state is reset.  The case of a
missing current track while recording is unreachable in the source
(startRecording always installs one); the source would throw there, and
the model returns the state unchanged. -/
def stopRecording (s : LooperState) (now : ℤ) : Option Track × LooperState :=
  if s.isRecording then
    match s.currentTrack with
    | some tr =>
        let recordedDuration := now - s.recordStartTime
        let loopDuration :=
          if recordedDuration < s.minimumLoopDuration then s.minimumLoopDuration
          else if s.maximumLoopDuration < recordedDuration then s.maximumLoopDuration
          else recordedDuration
        let completed := { tr with duration := loopDuration }
        (some completed,
         { s with
             tracks := s.tracks ++ [completed]
             loopDuration := loopDuration
             isRecording := false
             currentTrack := none })
    | none => (none, s)
  else (none, s)

/-- A recording session run against the looper: the recordEvent calls of
a session, each given by its Date.now() value and its event payload,
folded over the state. -/
def runRecordEvents (s : LooperState) (recs : List (ℤ × ℕ)) : LooperState :=
  recs.foldl (fun st p => recordEvent st p.1 p.2) s

/-- A full recording session on a fresh looper: startRecording at time
t0, the given recordEvent calls, stopRecording at time ts.  Returns the
stored track and the final state. -/
def recordSession (t0 : ℤ) (recs : List (ℤ × ℕ)) (ts : ℤ) :
    Option Track × LooperState :=
  stopRecording (runRecordEvents (startRecording initLooper t0).2 recs) ts

/-- The quantized offset recordEvent stores for a call at time now in a
session started at startTime, with the default quantize resolution of
10 ms: Math.round((now - startTime) / 10) * 10. -/
def quantizedAt (startTime now : ℤ) : ℤ :=
  jsRound (((now - startTime : ℤ) : ℚ) / 10) * 10

/-! ## Loop scheduler (looper.js, play and _processEventsAtTime) -/

/-- Early and late halves of the tolerance window (15 ms each). -/
def earlyWindow : ℤ := 15

/-- Late half of the tolerance window. -/
def lateWindow : ℤ := 15

/-- The due-event test of _processEventsAtTime (looper.js lines 244 to
248): the event time lies in the symmetric window around the elapsed
time, or the event sits within the window of the loop end while the
cursor sits within the window of zero (wraparound). -/
def dueEvent (loopDuration elapsedTime : ℤ) (e : LoopEvent) : Bool :=
  (decide (elapsedTime - earlyWindow ≤ e.time) && decide (e.time ≤ elapsedTime + lateWindow))
    || (decide (loopDuration - earlyWindow ≤ e.time) && decide (elapsedTime ≤ lateWindow))

/-- Embedding of _processEventsAtTime (looper.js lines 230 to 254): for
every unmuted track, every due event is fired through the callback; the
returned list records the callback invocations in order, each tagged
with the id of its track.  No per-event last-fired bookkeeping exists in
the source. -/
def processEventsAtTime (loopDuration : ℤ) (tracks : List Track)
    (elapsedTime : ℤ) : List (ℕ × LoopEvent) :=
  (tracks.map (fun tr =>
    if tr.muted then []
    else (tr.events.filter (dueEvent loopDuration elapsedTime)).map
      (fun e => (tr.id, e)))).flatten

/-- Scheduler loop state threaded through the animate closure of play:
the lastAnimationTime field and the accumulated callback invocations. -/
structure PlaybackSt where
  lastAnimationTime : ℤ
  fired : List (ℕ × LoopEvent)
  deriving DecidableEq, Repr

/-- One animate callback of play (looper.js lines 190 to 211) at tick
time currentTime: elapsed is (now - playbackStartTime) mod loopDuration,
delta is measured against lastAnimationTime which is then updated, and
events are processed when delta reached the quantize resolution or the
cursor sits before it.  The source reads Date.now() and the animation
timestamp; both are modelled by the one tick clock. -/
def animateTick (playbackStartTime loopDuration quantizeResolution : ℤ)
    (tracks : List Track) (st : PlaybackSt) (currentTime : ℤ) : PlaybackSt :=
  let elapsedTime := (currentTime - playbackStartTime) % loopDuration
  let deltaTime := currentTime - st.lastAnimationTime
  let st' := { st with lastAnimationTime := currentTime }
  if quantizeResolution ≤ deltaTime ∨ elapsedTime < quantizeResolution then
    { st' with fired := st'.fired ++ processEventsAtTime loopDuration tracks elapsedTime }
  else st'

/-- Playback of a whole tick sequence from play: lastAnimationTime starts
at the playback start and each tick runs the animate body; the result is
the ordered list of sink callback invocations. -/
def playTicks (playbackStartTime loopDuration quantizeResolution : ℤ)
    (tracks : List Track) (ticks : List ℤ) : List (ℕ × LoopEvent) :=
  (ticks.foldl (animateTick playbackStartTime loopDuration quantizeResolution tracks)
    { lastAnimationTime := playbackStartTime, fired := [] }).fired

/-! ## Helper lemmas -/

/-- Math.round is monotone. -/
theorem jsRound_mono {q r : ℚ} (h : q ≤ r) : jsRound q ≤ jsRound r :=
  Int.floor_le_floor (add_le_add_right h _)

/-- Rounding zero gives zero. -/
theorem jsRound_zero : jsRound 0 = 0 := by
  norm_num [jsRound]

/-- Recording an event while a track is recording, with quantization
enabled at the default 10 ms resolution, only appends the quantized
event to the current track. -/
theorem recordEvent_recording (s : LooperState) (tr : Track) (now : ℤ) (payload : ℕ)
    (h1 : s.isRecording = true) (h2 : s.currentTrack = some tr)
    (hq : s.quantizeEnabled = true) (hr : s.quantizeResolution = 10) :
    recordEvent s now payload
      = { s with currentTrack := some { tr with
            events := tr.events
              ++ [{ payload := payload, time := quantizedAt s.recordStartTime now }] } } := by
  simp [recordEvent, h1, h2, hq, hr, quantizedAt]

/-- A run of recordEvent calls while recording appends exactly the
quantized events, in order, to the current track. -/
theorem runRecordEvents_recording (recs : List (ℤ × ℕ)) (s : LooperState) (tr : Track)
    (h1 : s.isRecording = true) (h2 : s.currentTrack = some tr)
    (hq : s.quantizeEnabled = true) (hr : s.quantizeResolution = 10) :
    runRecordEvents s recs
      = { s with currentTrack := some { tr with
            events := tr.events ++ recs.map
              (fun p => { payload := p.2, time := quantizedAt s.recordStartTime p.1 }) } } := by
  induction recs generalizing s tr with
  | nil =>
    simp only [runRecordEvents, List.foldl_nil, List.map_nil, List.append_nil]
    rw [← h2]
  | cons p rest ih =>
    have hstep : runRecordEvents s (p :: rest)
        = runRecordEvents (recordEvent s p.1 p.2) rest := rfl
    have ih' := ih
      { s with currentTrack := some { tr with
          events := tr.events ++ [{ payload := p.2, time := quantizedAt s.recordStartTime p.1 }] } }
      { tr with events := tr.events ++ [{ payload := p.2, time := quantizedAt s.recordStartTime p.1 }] }
      h1 rfl hq hr
    rw [hstep, recordEvent_recording s tr p.1 p.2 h1 h2 hq hr, ih']
    simp [List.append_assoc]

/-- Quantized offsets of events recorded at or after the session start
are nonnegative. -/
theorem quantizedAt_nonneg {t0 t : ℤ} (h : t0 ≤ t) : 0 ≤ quantizedAt t0 t := by
  have h0 : jsRound 0 ≤ jsRound (((t - t0 : ℤ) : ℚ) / 10) := by
    apply jsRound_mono
    apply div_nonneg
    · exact_mod_cast sub_nonneg.mpr h
    · norm_num
  rw [jsRound_zero] at h0
  have := mul_nonneg h0 (by norm_num : (0 : ℤ) ≤ 10)
  simpa [quantizedAt] using this

/-- The quantized offset is monotone in the call time. -/
theorem quantizedAt_mono {t0 t t' : ℤ} (h : t ≤ t') :
    quantizedAt t0 t ≤ quantizedAt t0 t' := by
  unfold quantizedAt
  apply mul_le_mul_of_nonneg_right _ (by norm_num : (0 : ℤ) ≤ 10)
  apply jsRound_mono
  have hc : ((t - t0 : ℤ) : ℚ) ≤ ((t' - t0 : ℤ) : ℚ) :=
    Int.cast_le.mpr (sub_le_sub_right h t0)
  exact (div_le_div_iff_of_pos_right (by norm_num)).mpr hc

/-! ## Claim theorems -/

/-- C2: for every smoothed pose, calibration profile and sensitivity
setting, the normalization function _applyCalibration returns a pose
whose x, y and z components each lie in the closed interval [-1, 1]. -/
theorem applyCalibration_in_unit_range (headData : Pose4) (cd : CalibrationData)
    (cfg : SensitivityConfig) :
    -1 ≤ (applyCalibration headData cd cfg).x ∧ (applyCalibration headData cd cfg).x ≤ 1 ∧
    -1 ≤ (applyCalibration headData cd cfg).y ∧ (applyCalibration headData cd cfg).y ≤ 1 ∧
    -1 ≤ (applyCalibration headData cd cfg).z ∧ (applyCalibration headData cd cfg).z ≤ 1 := by
  unfold applyCalibration
  refine ⟨le_max_left _ _, ?_, le_max_left _ _, ?_, le_max_left _ _, ?_⟩ <;>
    exact max_le (by norm_num) (min_le_left _ _)

/-- C3 counterexample: the claimed formula carries a final factor of 2,
but _applyCalibration applies none.  At smoothed x = 0.65 with center
0.5, range 0.3 and sensitivity 1, the code yields x = 0.5 while the
claimed formula yields clamp(1.0) = 1. -/
theorem applyCalibration_factor_two_cex :
    (applyCalibration { x := 13/20, y := 1/2, z := 0, confidence := 1 }
        { centerX := 1/2, centerY := 1/2, centerZ := 0,
          rangeX := 3/10, rangeY := 3/10, rangeZ := 1/5 }
        { sensitivityX := 1, sensitivityY := 1, sensitivityZ := 1 }).x = 1/2 ∧
    (normalizeSpecWithTwo { x := 13/20, y := 1/2, z := 0, confidence := 1 }
        { centerX := 1/2, centerY := 1/2, centerZ := 0,
          rangeX := 3/10, rangeY := 3/10, rangeZ := 1/5 }
        { sensitivityX := 1, sensitivityY := 1, sensitivityZ := 1 }).x = 1 ∧
    applyCalibration { x := 13/20, y := 1/2, z := 0, confidence := 1 }
        { centerX := 1/2, centerY := 1/2, centerZ := 0,
          rangeX := 3/10, rangeY := 3/10, rangeZ := 1/5 }
        { sensitivityX := 1, sensitivityY := 1, sensitivityZ := 1 }
      ≠ normalizeSpecWithTwo { x := 13/20, y := 1/2, z := 0, confidence := 1 }
        { centerX := 1/2, centerY := 1/2, centerZ := 0,
          rangeX := 3/10, rangeY := 3/10, rangeZ := 1/5 }
        { sensitivityX := 1, sensitivityY := 1, sensitivityZ := 1 } := by
  refine ⟨?_, ?_, ?_⟩
  · norm_num [applyCalibration]
  · norm_num [normalizeSpecWithTwo]
  · intro h
    have hx := congrArg Pose4.x h
    rw [show (applyCalibration { x := 13/20, y := 1/2, z := 0, confidence := 1 }
        { centerX := 1/2, centerY := 1/2, centerZ := 0,
          rangeX := 3/10, rangeY := 3/10, rangeZ := 1/5 }
        { sensitivityX := 1, sensitivityY := 1, sensitivityZ := 1 }).x = 1/2 by
          norm_num [applyCalibration],
        show (normalizeSpecWithTwo { x := 13/20, y := 1/2, z := 0, confidence := 1 }
        { centerX := 1/2, centerY := 1/2, centerZ := 0,
          rangeX := 3/10, rangeY := 3/10, rangeZ := 1/5 }
        { sensitivityX := 1, sensitivityY := 1, sensitivityZ := 1 }).x = 1 by
          norm_num [normalizeSpecWithTwo]] at hx
    norm_num at hx

/-- C3 amended: for every smoothed pose, profile and per-axis
sensitivity, normalization computes, per axis,
((smoothed.axis - centerAxis) / rangeAxis) * sensitivityAxis, with no
final factor of 2, and then clamps the result to [-1, 1]. -/
theorem applyCalibration_eq_specNoTwo (headData : Pose4) (cd : CalibrationData)
    (cfg : SensitivityConfig) :
    applyCalibration headData cd cfg = normalizeSpecNoTwo headData cd cfg := rfl

/-- C4: for every set of per-pose samples, each derived range is the
larger of the two distances from the matched extreme centroids to the
center centroid, doubled, floored at the epsilon 0.05; so every range is
at least 0.05; and a center centroid x of 0.5 with left centroid x 0.3
and right centroid x 0.7 yields rangeX = 0.4. -/
theorem processCalibrationData_range_spec :
    (∀ samples : CalibSamples,
      (processCalibrationData samples).rangeX
          = max (1/20)
              (max |(centroid samples.left).x - (centroid samples.center).x|
                   |(centroid samples.right).x - (centroid samples.center).x| * 2) ∧
      (processCalibrationData samples).rangeY
          = max (1/20)
              (max |(centroid samples.up).y - (centroid samples.center).y|
                   |(centroid samples.down).y - (centroid samples.center).y| * 2) ∧
      (processCalibrationData samples).rangeZ
          = max (1/20)
              (max |(centroid samples.tiltLeft).z - (centroid samples.center).z|
                   |(centroid samples.tiltRight).z - (centroid samples.center).z| * 2) ∧
      1/20 ≤ (processCalibrationData samples).rangeX ∧
      1/20 ≤ (processCalibrationData samples).rangeY ∧
      1/20 ≤ (processCalibrationData samples).rangeZ) ∧
    (processCalibrationData
      { center := [{ x := 1/2, y := 1/2, z := 0 }]
        up := [{ x := 1/2, y := 7/10, z := 0 }]
        down := [{ x := 1/2, y := 3/10, z := 0 }]
        left := [{ x := 3/10, y := 1/2, z := 0 }]
        right := [{ x := 7/10, y := 1/2, z := 0 }]
        tiltLeft := [{ x := 1/2, y := 1/2, z := -1/5 }]
        tiltRight := [{ x := 1/2, y := 1/2, z := 1/5 }] }).rangeX = 2/5 := by
  constructor
  · intro samples
    exact ⟨rfl, rfl, rfl, le_max_left _ _, le_max_left _ _, le_max_left _ _⟩
  · norm_num [processCalibrationData, centroid, sumSamples, abs, max_def]

/-- C5 counterexample: a calibration step with five collected samples, a
nonzero count below the minimum of ten, rejects with the
insufficient-data error instead of proceeding. -/
theorem calibratePosition_fails_on_partial_data :
    calibratePosition "left" 5
        = Except.error "Failed to collect enough data for left position" ∧
    (5 : ℕ) ≠ 0 :=
  ⟨rfl, by decide⟩

/-- C5 amended: a per-pose calibration step fails with the
insufficient-data error exactly when the collected sample count is below
the minimum of ten, whether or not it is zero; the calibration run
reaches its end without failing if and only if every pose collected at
least ten samples. -/
theorem runCalibrationSequence_ok_iff (steps : List (String × ℕ)) :
    runCalibrationSequence steps = Except.ok () ↔
      ∀ p ∈ steps, minSamplesPerStep ≤ p.2 := by
  induction steps with
  | nil => simp [runCalibrationSequence]
  | cons hd tl ih =>
    by_cases h : hd.2 < minSamplesPerStep
    · simp [runCalibrationSequence, calibratePosition, h, Nat.not_le.mpr h]
    · simp [runCalibrationSequence, calibratePosition, h, ih, Nat.not_lt.mp h]

/-- C6: the claim says the first raw sample initializes the smoothed
state directly, and the source comments agree, but the constructor
initializes lastHeadData to a truthy zero object, so the direct-copy
branch of _smoothHeadData is unreachable: the first sample (1, 1, 1)
with the default smoothing factor 0.7 is blended toward zero, producing
(0.3, 0.3, 0.3) instead of (1, 1, 1). -/
theorem first_sample_blended_toward_zero :
    smoothHeadData initialLastHeadData { x := 1, y := 1, z := 1, confidence := 1 }
        defaultSmoothingFactor
      = some { x := 3/10, y := 3/10, z := 3/10, confidence := 1 } ∧
    smoothHeadData initialLastHeadData { x := 1, y := 1, z := 1, confidence := 1 }
        defaultSmoothingFactor
      ≠ some { x := 1, y := 1, z := 1, confidence := 1 } := by
  constructor
  · norm_num [smoothHeadData, initialLastHeadData, defaultSmoothingFactor]
  · norm_num [smoothHeadData, initialLastHeadData, defaultSmoothingFactor]

/-- C7: for every normalized x and scale length N, the note mapper
returns clamp(floor(((x + 1) / 2) * N), 0, N - 1); with N = 7, x = -1
maps to 0, x = 0.999 maps to 6, and x = 1 is clamped to 6. -/
theorem mapHeadXToNoteIndex_spec :
    (∀ (x : ℚ) (scaleLength : ℕ),
      mapHeadXToNoteIndex x scaleLength
        = clampInt ⌊((x + 1) / 2) * (scaleLength : ℚ)⌋ 0 ((scaleLength : ℤ) - 1)) ∧
    mapHeadXToNoteIndex (-1) 7 = 0 ∧
    mapHeadXToNoteIndex (999/1000) 7 = 6 ∧
    mapHeadXToNoteIndex 1 7 = 6 := by
  refine ⟨fun x scaleLength => rfl, ?_, ?_, ?_⟩ <;> norm_num [mapHeadXToNoteIndex]

/-- C8: for every recording session active when stopRecording is called,
with the default duration bounds of 2000 ms and 20000 ms, the stored
track duration is the wall-clock recording length clamped to
[2000, 20000] and the track is appended to the track list. -/
theorem stopRecording_clamps_and_appends (s : LooperState) (now : ℤ) (tr : Track)
    (h1 : s.isRecording = true) (h2 : s.currentTrack = some tr)
    (h3 : s.minimumLoopDuration = 2000) (h4 : s.maximumLoopDuration = 20000) :
    (stopRecording s now).1
        = some { tr with duration := max 2000 (min 20000 (now - s.recordStartTime)) } ∧
    (stopRecording s now).2.tracks
        = s.tracks
            ++ [{ tr with duration := max 2000 (min 20000 (now - s.recordStartTime)) }] := by
  have hd : (if now - s.recordStartTime < (2000 : ℤ) then (2000 : ℤ)
        else if (20000 : ℤ) < now - s.recordStartTime then 20000
        else now - s.recordStartTime)
      = max 2000 (min 20000 (now - s.recordStartTime)) := by
    rcases lt_or_le (now - s.recordStartTime) 2000 with h | h
    · rw [if_pos h, max_eq_left]
      exact le_trans (min_le_right _ _) (le_of_lt h)
    · rw [if_neg (not_lt.mpr h)]
      rcases lt_or_le (20000 : ℤ) (now - s.recordStartTime) with h' | h'
      · rw [if_pos h', max_eq_right, min_eq_left (le_of_lt h')]
        omega
      · rw [if_neg (not_lt.mpr h'), max_eq_right, min_eq_right h']
        omega
  simp only [stopRecording, h1, h2, h3, h4, if_true]
  rw [hd]
  exact ⟨rfl, rfl⟩

/-- C8 witness: a recording started at time 0 and stopped at 1000 ms
stores duration 2000, and one stopped at 25000 ms stores duration
20000, both appended to the track list. -/
theorem stopRecording_clamps_and_appends_witness :
    ((stopRecording (startRecording initLooper 0).2 1000).1
        = some { id := 0, events := [], duration := 2000, muted := false } ∧
     (stopRecording (startRecording initLooper 0).2 1000).2.tracks
        = [{ id := 0, events := [], duration := 2000, muted := false }]) ∧
    ((stopRecording (startRecording initLooper 0).2 25000).1
        = some { id := 0, events := [], duration := 20000, muted := false } ∧
     (stopRecording (startRecording initLooper 0).2 25000).2.tracks
        = [{ id := 0, events := [], duration := 20000, muted := false }]) := by
  have h1 := stopRecording_clamps_and_appends (startRecording initLooper 0).2 1000
    { id := 0, events := [], duration := 0, muted := false }
    (by decide) (by decide) (by decide) (by decide)
  have h2 := stopRecording_clamps_and_appends (startRecording initLooper 0).2 25000
    { id := 0, events := [], duration := 0, muted := false }
    (by decide) (by decide) (by decide) (by decide)
  exact ⟨⟨h1.1.trans (by decide), h1.2.trans (by decide)⟩,
         ⟨h2.1.trans (by decide), h2.2.trans (by decide)⟩⟩

/-- C10: calling stopRecording when no recording is in progress returns
null and leaves the looper state, in particular the track list, the loop
duration and the recording flag, exactly unchanged. -/
theorem stopRecording_noop_when_not_recording (s : LooperState) (now : ℤ)
    (h : s.isRecording = false) :
    stopRecording s now = (none, s) := by
  simp [stopRecording, h]

/-- C10 witness: stopRecording on the freshly constructed looper at time
5 returns null with the state unchanged. -/
theorem stopRecording_noop_witness :
    initLooper.isRecording = false ∧ stopRecording initLooper 5 = (none, initLooper) :=
  ⟨rfl, stopRecording_noop_when_not_recording initLooper 5 rfl⟩

/-- C1: the scheduler has no per-event last-fired bookkeeping, so an
event can fire more than once in a single loop traversal.  With loop
duration 2000 ms, one unmuted track holding a single event at 100 ms,
and ticks at 95 ms and 110 ms (irregular deltas of 95 ms and 15 ms, both
reaching the 10 ms gate and both inside the first traversal), the due
window of plus or minus 15 ms matches the event at both ticks and the
sink callback fires twice. -/
theorem scheduler_double_fires_in_one_traversal :
    playTicks 0 2000 10
        [{ id := 0, events := [{ payload := 0, time := 100 }],
           duration := 2000, muted := false }]
        [95, 110]
      = [(0, { payload := 0, time := 100 }), (0, { payload := 0, time := 100 })] := by
  decide

/-- C9 counterexample: in a session started at time 0 with one event
recorded at 2995 ms and stopped at 2998 ms, quantization rounds the
offset up to 3000 ms while the stored duration is 2998 ms, so an event
offset lies outside [0, track.durationMs]. -/
theorem recorded_offset_exceeds_duration_cex :
    (recordSession 0 [(2995, 0)] 2998).2.tracks
      = [{ id := 0, events := [{ payload := 0, time := 3000 }],
           duration := 2998, muted := false }] ∧
    ¬ ((3000 : ℤ) ≤ 2998) := by
  constructor
  · norm_num [recordSession, runRecordEvents, stopRecording, recordEvent,
      startRecording, initLooper, jsRound]
  · decide

/-- C9 amended: for every recording session, every stored loop event has
a nonnegative time offset bounded by the quantized wall-clock recording
length Math.round((stopTime - startTime) / Q) * Q; the offset can exceed
the stored, clamped track duration, both when quantization rounds an
offset up past the stop time and when the recording ran past the 20000
ms maximum. -/
theorem recordSession_offsets_bounded (t0 : ℤ) (recs : List (ℤ × ℕ)) (ts : ℤ)
    (hbound : ∀ p ∈ recs, t0 ≤ p.1 ∧ p.1 ≤ ts) :
    ∀ tr ∈ (recordSession t0 recs ts).2.tracks, ∀ e ∈ tr.events,
      0 ≤ e.time ∧ e.time ≤ quantizedAt t0 ts := by
  have hstart : (startRecording initLooper t0).2
      = { initLooper with
          currentTrack := some { id := 0, events := [], duration := 0, muted := false }
          trackCounter := 1
          recordStartTime := t0
          isRecording := true } := rfl
  intro tr htr e he
  rw [recordSession, hstart,
      runRecordEvents_recording recs _ { id := 0, events := [], duration := 0, muted := false }
        rfl rfl rfl rfl] at htr
  simp [stopRecording, initLooper] at htr
  subst htr
  simp at he
  obtain ⟨p, q, hmem, rfl⟩ := he
  exact ⟨quantizedAt_nonneg (hbound (p, q) hmem).1, quantizedAt_mono (hbound (p, q) hmem).2⟩

/-- C9 amended witness: the bound instantiated on the session started at
0 with one event recorded at 2995 ms and stopped at 2998 ms. -/
theorem recordSession_offsets_bounded_witness :
    (∀ p ∈ [((2995 : ℤ), (0 : ℕ))], (0 : ℤ) ≤ p.1 ∧ p.1 ≤ 2998) ∧
    (∀ tr ∈ (recordSession 0 [(2995, 0)] 2998).2.tracks, ∀ e ∈ tr.events,
      0 ≤ e.time ∧ e.time ≤ quantizedAt 0 2998) :=
  ⟨by decide, recordSession_offsets_bounded 0 [(2995, 0)] 2998 (by decide)⟩

end HeadSynth
